import Mathlib

/-!
Verification of the content-pipeline repository: a shallow embedding of the
status and stage machinery (phase 2 categorization, the auto-approve gate,
phase 3 content generation, the publish stage, and the phase 1 keyword
dedup), with theorems about the specified properties.

Network calls, JSON parsing of model responses, and file output are
abstracted into explicit service parameters and return values; all other
control flow follows the scripts line by line.
-/

namespace Pipeline

/-- Status constants from config/settings.py. -/
def STATUS_PENDING : String := "Pending"

def STATUS_RUN_GPT : String := "Run GPT"

def STATUS_POST_LIVE : String := "Post Live"

def STATUS_PUBLISHED : String := "Published"

/-- Category constant from config/settings.py. -/
def CATEGORY_NOT_RELEVANT : String := "Not Relevant"

/-- The fixed taxonomy from config/settings.py. -/
def VALID_CATEGORIES : List String :=
  ["Admit Card", "Result", "Job Notification", "Not Relevant"]

/-- One CSV row / entry dict as the stages see it (union of the fields the
embedded stages read or write; every field is a string, as in the CSV files). -/
structure Entry where
  keyword : String
  interest_score : String
  related_queries : String
  category : String
  ai_confidence : String
  ai_reasoning : String
  web_search_summary : String
  categorized_at : String
  status : String
  content_generated_at : String
  instagram_link : String
  blog_link : String
  youtube_reel_link : String
  youtube_thumbnail_link : String
  deriving DecidableEq

/-- An all-empty entry, used to build concrete test entries. -/
def entry0 : Entry :=
  ⟨"", "", "", "", "", "", "", "", "", "", "", "", "", ""⟩

/-- Is the first list an initial segment of the second? Helper for the
Python substring test. -/
def leadsList : List Char → List Char → Bool
  | [], _ => true
  | _ :: _, [] => false
  | a :: as, b :: bs => a == b && leadsList as bs

/-- The Python membership test of one string inside another. -/
def strContains (hay needle : String) : Bool :=
  (List.range (hay.length + 1)).any (fun i => leadsList needle.toList (hay.toList.drop i))

def cardIndicators : List String := ["admit card", "hall ticket", "call letter", "download"]

def resultIndicators : List String := ["result", "merit list", "cut off", "declared", "scorecard"]

def jobIndicators : List String := ["job", "recruitment", "notification", "vacancy", "hiring"]

def govIndicators : List String := ["ssc", "upsc", "bank", "railway", "neet", "jee", "government"]

/-- GPT1CategorizationAgent.perform_web_search: the local keyword-substring
heuristic that builds the web context summary. -/
def perform_web_search (keyword : String) : String :=
  let keyword_lower := keyword.toLower
  let c1 := if cardIndicators.any (fun s => strContains keyword_lower s)
            then ["Found admit card indicator in keyword"] else []
  let c2 := if resultIndicators.any (fun s => strContains keyword_lower s)
            then ["Found result indicator in keyword"] else []
  let c3 := if jobIndicators.any (fun s => strContains keyword_lower s)
            then ["Found job notification indicator in keyword"] else []
  let c4 := if govIndicators.any (fun s => strContains keyword_lower s)
            then ["Found government/education context"] else []
  let search_context := c1 ++ c2 ++ c3 ++ c4
  if search_context.isEmpty then "No specific job-related context found"
  else String.intercalate "; " search_context

/-- The associative record parsed from a model response body, with the three
fields the categorization stage reads; each may be missing. -/
structure GptResult where
  category : Option String
  confidence : Option String
  reasoning : Option String
  deriving DecidableEq

/-- The typed result categorize_keyword always returns. -/
structure CatResult where
  category : String
  confidence : String
  reasoning : String
  web_search_summary : String
  deriving DecidableEq

/-- A language-model service for categorization, indexed by attempt number:
one call covers the network request, the body extraction and the JSON parse;
any exception on that path is the error case the except branch catches. -/
def CatSvc : Type := Nat → Except String GptResult

/-- The retry loop of categorize_keyword: remaining attempts, attempt index,
current backoff. Returns the first parsed result (if any) together with the
list of backoff sleeps performed: the code sleeps after every failed attempt,
then doubles the backoff, and the for/else falls through to the caller when
no attempt succeeded. -/
def categorizeAttempts (svc : CatSvc) : Nat → Nat → Nat → Option GptResult × List Nat
  | 0, _, _ => (none, [])
  | n + 1, i, backoff =>
    match svc i with
    | Except.ok r => (some r, [])
    | Except.error _ =>
      let rest := categorizeAttempts svc n (i + 1) (backoff * 2)
      (rest.1, backoff :: rest.2)

/-- Category handling in categorize_keyword: a missing category defaults to
Not Relevant, and an out-of-taxonomy value is coerced to Not Relevant. -/
def coerceCategory (c : Option String) : String :=
  let category := c.getD CATEGORY_NOT_RELEVANT
  if category ∈ VALID_CATEGORIES then category else CATEGORY_NOT_RELEVANT

/-- The sentinel failure result categorize_keyword returns when max retries
are reached. -/
def sentinelResult (web_context : String) : CatResult :=
  { category := CATEGORY_NOT_RELEVANT, confidence := "Low",
    reasoning := "ApiPipe quota exceeded or errors", web_search_summary := web_context }

/-- GPT1CategorizationAgent.categorize_keyword: web-search heuristic, retry
loop (the script passes retries 3 and backoff 5), then field extraction with
category coercion; the confidence and reasoning fields are taken with a
default only when missing. The result is paired with the list of backoff
sleeps performed. -/
def categorize_keyword (svc : CatSvc) (entry : Entry) (retries backoff : Nat) :
    CatResult × List Nat :=
  let web_context := perform_web_search entry.keyword
  match categorizeAttempts svc retries 0 backoff with
  | (none, waits) => (sentinelResult web_context, waits)
  | (some result, waits) =>
    ({ category := coerceCategory result.category,
       confidence := result.confidence.getD "Low",
       reasoning := result.reasoning.getD "No reasoning provided",
       web_search_summary := web_context }, waits)

/-- A categorization service that fails every attempt. -/
def failSvc : CatSvc := fun _ => Except.error "boom"

/-- A categorization service that parses successfully but reports a
confidence value outside Low, Medium, High. -/
def badConfSvc : CatSvc := fun _ => Except.ok ⟨some "Result", some "Banana", some "ok"⟩

/-- GPT1CategorizationAgent.process_batch, per entry: categorize, then write
the three AI fields, the web summary, a timestamp, and unconditionally the
status Pending back onto the entry. -/
def processBatchEntry (svc : CatSvc) (ts : String) (entry : Entry) : Entry :=
  let ai := (categorize_keyword svc entry 3 5).1
  { entry with
    category := ai.category,
    ai_confidence := ai.confidence,
    ai_reasoning := ai.reasoning,
    web_search_summary := ai.web_search_summary,
    categorized_at := ts,
    status := STATUS_PENDING }

/-- GPT1CategorizationAgent.process_batch over a whole batch: every entry is
processed and appended; no entry aborts the batch and no error is signalled. -/
def process_batch (svc : CatSvc) (ts : String) (data : List Entry) : List Entry :=
  data.map (processBatchEntry svc ts)

/-- Position of a status along the specified order Pending, Run GPT,
Content Generated, Post Live, Published; none for Not Relevant (the
absorbing side state) and for unknown strings. -/
def statusRank (s : String) : Option Nat :=
  if s = "Pending" then some 0
  else if s = "Run GPT" then some 1
  else if s = "Content Generated" then some 2
  else if s = "Post Live" then some 3
  else if s = "Published" then some 4
  else none

/-- True when the second status sits strictly earlier than the first along
the order above (both must have a rank for a regression to be observable). -/
def statusRegressed (before after : String) : Bool :=
  match statusRank before, statusRank after with
  | some rb, some ra => decide (ra < rb)
  | _, _ => false

/-- Python str.capitalize: first character uppercased, the rest lowercased. -/
def pyCapitalize (s : String) : String :=
  match s.toList with
  | [] => ""
  | c :: cs => String.mk (c.toUpper :: cs.map Char.toLower)

/-- The confidence_order dict lookup of auto_approve.py:
Low 0, Medium 1, High 2, anything else absent. -/
def confidence_order (s : String) : Option Nat :=
  if s = "Low" then some 0
  else if s = "Medium" then some 1
  else if s = "High" then some 2
  else none

/-- auto_approve.py, per row: capitalize the confidence, look up its rank
(absent values rank 0) and the threshold rank (absent thresholds rank 1),
and when the rank reaches the threshold and the category is relevant,
overwrite status with Run GPT; otherwise pass the row through unchanged.
The script default for the threshold is Medium. -/
def autoApproveRow (min_confidence : String) (row : Entry) : Entry :=
  let conf := pyCapitalize row.ai_confidence
  let cat := row.category
  if (confidence_order conf).getD 0 ≥ (confidence_order min_confidence).getD 1 ∧
      cat ≠ CATEGORY_NOT_RELEVANT
  then { row with status := STATUS_RUN_GPT }
  else row

/-- auto_approve.py over the whole CSV: every row is written through. -/
def auto_approve (min_confidence : String) (rows : List Entry) : List Entry :=
  rows.map (autoApproveRow min_confidence)

/-- Confidence ranks exactly as the specification words them:
Low 0, Medium 1, High 2 (made total on strings; only applied to these
three values). -/
def spec_confidence_rank (s : String) : Nat :=
  if s = "Low" then 0 else if s = "Medium" then 1 else if s = "High" then 2 else 0

/-- The four content artifact slots of phase 3, in the iteration order of
the prompts dict. -/
inductive ContentType
  | instagram_post
  | blog_article
  | youtube_reel
  | youtube_thumbnail
  deriving DecidableEq

def contentTypes : List ContentType :=
  [ContentType.instagram_post, ContentType.blog_article,
   ContentType.youtube_reel, ContentType.youtube_thumbnail]

/-- One slot of the generated-content map: either the parsed JSON record of
the model response, or the error marker dict the except branch stores. -/
inductive Artifact
  | parsed (content : String)
  | errorMarker (msg : String)
  deriving DecidableEq

def Artifact.isError : Artifact → Bool
  | Artifact.errorMarker _ => true
  | Artifact.parsed _ => false

/-- A language-model service for content generation: per slot and per
attempt index, the outcome of the request, body extraction and JSON parse. -/
def ContentSvc : Type := ContentType → Nat → Except String String

/-- The single network call phase 3 makes for one slot: exactly one attempt
(index 0) and no backoff sleeps; a failure is recorded as an error marker at
once. Returns the artifact, the number of attempts made, and the backoff
sleeps performed. The fixed post-success rate-limit delay of add_delay is
not a backoff sleep and is not listed. -/
def contentSlotCall (csvc : ContentSvc) (ct : ContentType) : Artifact × Nat × List Nat :=
  match csvc ct 0 with
  | Except.ok s => (Artifact.parsed s, 1, [])
  | Except.error e => (Artifact.errorMarker e, 1, [])

/-- The artifact stored into the generated-content map for one slot. -/
def generateSlot (csvc : ContentSvc) (ct : ContentType) : Artifact :=
  (contentSlotCall csvc ct).1

/-- A content service that fails every call. -/
def cfailSvc : ContentSvc := fun _ _ => Except.error "boom"

/-- A content service where exactly the instagram_post slot fails. -/
def oneFailSvc : ContentSvc := fun ct _ =>
  if ct = ContentType.instagram_post then Except.error "boom" else Except.ok "artifact"

/-- The per-keyword content record phase 3 builds (the generated_content
dict); slots in dict insertion order. -/
structure GeneratedContent where
  keyword : String
  category : String
  interest_score : String
  generated_at : String
  slots : List (ContentType × Artifact)
  deriving DecidableEq

/-- GPT2ContentGenerationAgent.generate_content_for_keyword: skip (None)
when the status is not Run GPT or the category is Not Relevant; otherwise
one call per slot, each failure recorded in place and the remaining slots
still attempted. -/
def generate_content_for_keyword (csvc : ContentSvc) (ts : String) (entry : Entry) :
    Option GeneratedContent :=
  if entry.status ≠ STATUS_RUN_GPT then none
  else if entry.category = CATEGORY_NOT_RELEVANT then none
  else some
    { keyword := entry.keyword,
      category := entry.category,
      interest_score := entry.interest_score,
      generated_at := ts,
      slots := contentTypes.map (fun ct => (ct, generateSlot csvc ct)) }

def content_base_url : String := "https://your-public-host.com/ai-content"

/-- GPT2ContentGenerationAgent.update_original_data_with_content_links, per
entry: when the keyword is in the generated-content map, set the status
(Not Relevant for a Not Relevant category, else Content Generated), stamp
the time, and derive the four public links from the keyword; other entries
pass through unchanged. -/
def updateEntryWithContentLinks (ts : String) (content_keys : List String)
    (entry : Entry) : Entry :=
  if entry.keyword ∈ content_keys then
    let key := entry.keyword.replace " " "_"
    let entry :=
      if entry.category = CATEGORY_NOT_RELEVANT
      then { entry with status := "Not Relevant" }
      else { entry with status := "Content Generated" }
    { entry with
      content_generated_at := ts,
      instagram_link := content_base_url ++ "/instagram_" ++ key ++ ".txt",
      blog_link := content_base_url ++ "/blog_" ++ key ++ ".html",
      youtube_reel_link := content_base_url ++ "/reel_" ++ key ++ ".txt",
      youtube_thumbnail_link := content_base_url ++ "/thumbnail_" ++ key ++ ".png" }
  else entry

def update_original_data_with_content_links (ts : String)
    (generated : List GeneratedContent) (original : List Entry) : List Entry :=
  original.map (updateEntryWithContentLinks ts (generated.map (fun g => g.keyword)))

/-- One spreadsheet row as publish_content.py reads it. -/
structure SheetRow where
  keyword : String
  status : String
  approval : String
  instagram_link : String
  blog_link : String
  youtube_thumbnail_link : String
  deriving DecidableEq

/-- The publish side effects fired for one row: the three mock publish
calls, with the literal sample arguments the script passes. -/
inductive PublishEvent
  | instagram (caption hashtags doc_link : String)
  | blog (title content : String) (links : List String)
  | youtube (script thumbnail : String)
  deriving DecidableEq

/-- Publisher.run, per row: skip when approval is not Approved or the status
is Not Relevant; skip when already Published; otherwise fire the three mock
publish calls and write status Published back. Returns the updated row and
the side effects performed for it. -/
def publishRowStep (row : SheetRow) : SheetRow × List PublishEvent :=
  if row.approval ≠ "Approved" ∨ row.status = "Not Relevant" then (row, [])
  else if row.status = "Published" then (row, [])
  else
    ({ row with status := "Published" },
     [PublishEvent.instagram "Sample caption with #hashtag" "#hashtag" row.instagram_link,
      PublishEvent.blog row.keyword "Sample content with links" [row.blog_link],
      PublishEvent.youtube "Sample reel script" row.youtube_thumbnail_link])

/-- Publisher.run over the snapshot of rows read once at the start: rows are
processed in order, statuses written back per row, side effects accumulated. -/
def publisher_run : List SheetRow → List SheetRow × List PublishEvent
  | [] => ([], [])
  | r :: rs =>
    let step := publishRowStep r
    let rest := publisher_run rs
    (step.1 :: rest.1, step.2 ++ rest.2)

/-- One raw record from the trend source (phase 1). -/
structure TrendRecord where
  keyword : String
  interest : Nat
  related_topics : String
  timestamp : String
  geo : String
  category : String
  deriving DecidableEq

/-- pandas drop_duplicates on the keyword column keeping the first
occurrence: order preserved, later records with an already-seen keyword
dropped. -/
def dedupFirstGo (seen : List String) : List TrendRecord → List TrendRecord
  | [] => []
  | r :: rs =>
    if r.keyword ∈ seen then dedupFirstGo seen rs
    else r :: dedupFirstGo (r.keyword :: seen) rs

/-- ImprovedGoogleTrendsExtractor.save_to_csv: the dedup it applies to the
data before writing (the file output itself is abstracted away). -/
def save_to_csv_dedup (data : List TrendRecord) : List TrendRecord :=
  dedupFirstGo [] data

/-- Two trend records sharing a keyword with different interest scores. -/
def sscRecA : TrendRecord := ⟨"ssc result", 50, "", "", "IN", "Result"⟩

def sscRecB : TrendRecord := ⟨"ssc result", 90, "", "", "IN", "Result"⟩

/-- A status never counts as regressed relative to itself. -/
theorem statusRegressed_self (s : String) : statusRegressed s s = false := by
  rcases h : statusRank s with _ | rb <;> simp [statusRegressed, h]

/-- Moving to Published is never a regression: Published is the maximal
rank of the order. -/
theorem statusRegressed_to_published (s : String) :
    statusRegressed s "Published" = false := by
  have hp : statusRank "Published" = some 4 := rfl
  unfold statusRegressed
  rw [hp]
  unfold statusRank
  split_ifs <;> simp

theorem pyCapitalize_Low : pyCapitalize "Low" = "Low" := rfl

theorem pyCapitalize_Medium : pyCapitalize "Medium" = "Medium" := rfl

theorem pyCapitalize_High : pyCapitalize "High" = "High" := rfl

/-- An entry whose keyword is in the generated map and whose category is
relevant ends the content-update pass with status Content Generated. -/
theorem updateStatus_content_generated (ts2 : String) (gc : GeneratedContent) (e : Entry)
    (hk : gc.keyword = e.keyword) (hcat : e.category ≠ "Not Relevant") :
    (update_original_data_with_content_links ts2 [gc] [e]).map Entry.status
      = ["Content Generated"] := by
  simp [update_original_data_with_content_links, updateEntryWithContentLinks, hk, hcat,
    CATEGORY_NOT_RELEVANT]

/-- Closed form of the per-row publish step: side effects fire and status
becomes Published exactly under the Approved / not-Published /
not-Not-Relevant condition; otherwise the row is untouched. -/
theorem publishRowStep_eq (r : SheetRow) :
    publishRowStep r =
      (if r.approval = "Approved" ∧ r.status ≠ "Published" ∧ r.status ≠ "Not Relevant"
       then ({ r with status := "Published" },
             [PublishEvent.instagram "Sample caption with #hashtag" "#hashtag" r.instagram_link,
              PublishEvent.blog r.keyword "Sample content with links" [r.blog_link],
              PublishEvent.youtube "Sample reel script" r.youtube_thumbnail_link])
       else (r, [])) := by
  unfold publishRowStep
  split_ifs <;> simp_all

/-- Applying the per-row publish step to its own output changes nothing and
fires no side effects. -/
theorem publishRowStep_idem (r : SheetRow) :
    publishRowStep (publishRowStep r).1 = ((publishRowStep r).1, []) := by
  rw [publishRowStep_eq r]
  split_ifs with h
  · rw [publishRowStep_eq]
    simp
  · rw [publishRowStep_eq]
    simp [h]

/-- C1 (counterexample): the claim that status never regresses under every
stage operation fails on the code: the categorization batch overwrites
status unconditionally with Pending, so an entry entering with status
Run GPT is regressed to Pending. -/
theorem C1_counterexample :
    statusRegressed ({ entry0 with status := "Run GPT" } : Entry).status
      (processBatchEntry failSvc "2025-01-01 00:00:00" { entry0 with status := "Run GPT" }).status = true := by
  decide

/-- C1 (amended): status never regresses under the publish step for any row,
and never regresses under the categorization batch or the approval gate for
entries arriving with status Pending, nor under the content-link update for
entries arriving with status Run GPT — the statuses those stages receive in
the pipeline flow. (Not Relevant, reached from Run GPT by the update pass,
has no rank on the main order and is not a regression.) -/
theorem C1_no_regression (svc : CatSvc) (ts ts2 t : String)
    (keys : List String) (e1 e2 : Entry) (r : SheetRow)
    (h1 : e1.status = "Pending") (h2 : e2.status = "Run GPT") :
    statusRegressed e1.status (processBatchEntry svc ts e1).status = false
    ∧ statusRegressed e1.status (autoApproveRow t e1).status = false
    ∧ statusRegressed e2.status (updateEntryWithContentLinks ts2 keys e2).status = false
    ∧ statusRegressed r.status (publishRowStep r).1.status = false := by
  refine ⟨?_, ?_, ?_, ?_⟩
  · simp [processBatchEntry, h1, statusRegressed, statusRank, STATUS_PENDING]
  · simp only [autoApproveRow]
    split_ifs <;> simp [h1, statusRegressed, statusRank, STATUS_RUN_GPT]
  · simp only [updateEntryWithContentLinks]
    split_ifs <;> simp [h2, statusRegressed, statusRank]
  · unfold publishRowStep
    split_ifs <;> simp [statusRegressed_self, statusRegressed_to_published]

/-- C1 witness: the amended statement at concrete entries and a concrete
sheet row. -/
theorem C1_witness :
    statusRegressed ({ entry0 with status := "Pending" } : Entry).status
      (processBatchEntry failSvc "t1" { entry0 with status := "Pending" }).status = false
    ∧ statusRegressed ({ entry0 with status := "Pending" } : Entry).status
        (autoApproveRow "Medium" { entry0 with status := "Pending" }).status = false
    ∧ statusRegressed ({ entry0 with status := "Run GPT" } : Entry).status
        (updateEntryWithContentLinks "t2" [] { entry0 with status := "Run GPT" }).status = false
    ∧ statusRegressed (⟨"k", "Pending", "Approved", "", "", ""⟩ : SheetRow).status
        (publishRowStep ⟨"k", "Pending", "Approved", "", "", ""⟩).1.status = false :=
  C1_no_regression failSvc "t1" "t2" "Medium" [] { entry0 with status := "Pending" }
    { entry0 with status := "Run GPT" } ⟨"k", "Pending", "Approved", "", "", ""⟩ rfl rfl

/-- C2 (counterexample): the claim that every content-generation request
goes through the backoff-retrying wrapper fails on the code: against a
service that always fails, a content slot call makes exactly one attempt
and performs no backoff sleeps, instead of the three attempts with sleeps
5, 10, 20 the wrapper would make. -/
theorem C2_counterexample :
    (contentSlotCall cfailSvc ContentType.instagram_post).2.1 = 1
    ∧ (contentSlotCall cfailSvc ContentType.instagram_post).2.2 = []
    ∧ (1 : Nat) ≠ 3
    ∧ ([] : List Nat) ≠ [5, 10, 20] := by decide

/-- C2 (amended): only the categorization requests are performed through
the backoff-retrying wrapper — their sleep sequence is always an initial
segment of 5, 10, 20, so at most three attempts with doubling backoff —
while each of the four content-generation requests is performed exactly
once, with no retry and no backoff sleep, whatever the outcome. -/
theorem C2_retry_usage (svc : CatSvc) (csvc : ContentSvc) (e : Entry) (ct : ContentType) :
    (categorize_keyword svc e 3 5).2 ∈ [([] : List Nat), [5], [5, 10], [5, 10, 20]]
    ∧ (contentSlotCall csvc ct).2 = (1, ([] : List Nat)) := by
  constructor
  · cases h0 : svc 0 with
    | ok r0 => simp [categorize_keyword, categorizeAttempts, h0]
    | error m0 =>
      cases h1 : svc 1 with
      | ok r1 => simp [categorize_keyword, categorizeAttempts, h0, h1]
      | error m1 =>
        cases h2 : svc 2 with
        | ok r2 => simp [categorize_keyword, categorizeAttempts, h0, h1, h2]
        | error m2 => simp [categorize_keyword, categorizeAttempts, h0, h1, h2]
  · cases h : csvc ct 0 <;> simp [contentSlotCall, h]

/-- C3: with retries 3 and initial backoff 5 against a service that fails
every attempt, the categorization backoff sleeps are exactly the geometric
sequence 5, 10, 20, totalling 35 = 5 * (2 ^ 3 - 1) time units, after which
the sentinel failure result is returned. -/
theorem C3_backoff_geometric (svc : CatSvc) (e : Entry)
    (hfail : ∀ i, ∃ m, svc i = Except.error m) :
    (categorize_keyword svc e 3 5).2 = [5, 10, 20]
    ∧ List.sum (categorize_keyword svc e 3 5).2 = 35
    ∧ 35 = 5 * (2 ^ 3 - 1)
    ∧ (categorize_keyword svc e 3 5).1 = sentinelResult (perform_web_search e.keyword) := by
  obtain ⟨m0, h0⟩ := hfail 0
  obtain ⟨m1, h1⟩ := hfail 1
  obtain ⟨m2, h2⟩ := hfail 2
  refine ⟨?_, ?_, by norm_num, ?_⟩ <;>
    simp [categorize_keyword, categorizeAttempts, h0, h1, h2]

/-- C3 witness: the statement at the concrete always-failing service and a
concrete entry. -/
theorem C3_backoff_geometric_witness :
    (categorize_keyword failSvc entry0 3 5).2 = [5, 10, 20]
    ∧ List.sum (categorize_keyword failSvc entry0 3 5).2 = 35
    ∧ 35 = 5 * (2 ^ 3 - 1)
    ∧ (categorize_keyword failSvc entry0 3 5).1 = sentinelResult (perform_web_search entry0.keyword) :=
  C3_backoff_geometric failSvc entry0 (fun _ => ⟨"boom", rfl⟩)

/-- C4: for confidence and threshold values inside the taxonomy, the
approval gate writes status Run GPT exactly when the confidence rank (Low 0,
Medium 1, High 2) reaches the threshold rank and the category is not
Not Relevant; in particular a Low-confidence row is never approved at
threshold Medium, and a Not Relevant row is never approved at any
confidence. -/
theorem C4_approval_gate (row row2 : Entry) (t t2 : String)
    (hconf : row.ai_confidence = "Low" ∨ row.ai_confidence = "Medium" ∨ row.ai_confidence = "High")
    (ht : t = "Low" ∨ t = "Medium" ∨ t = "High")
    (h2 : row2.category = "Not Relevant") :
    autoApproveRow t row =
      (if spec_confidence_rank row.ai_confidence ≥ spec_confidence_rank t ∧
          row.category ≠ "Not Relevant"
       then { row with status := "Run GPT" } else row)
    ∧ autoApproveRow "Medium" { row with ai_confidence := "Low" } = { row with ai_confidence := "Low" }
    ∧ autoApproveRow t2 row2 = row2 := by
  refine ⟨?_, ?_, ?_⟩
  · rcases hconf with h | h | h <;> rcases ht with g | g | g <;>
      simp [autoApproveRow, spec_confidence_rank, confidence_order, h, g,
        pyCapitalize_Low, pyCapitalize_Medium, pyCapitalize_High,
        CATEGORY_NOT_RELEVANT, STATUS_RUN_GPT]
  · simp [autoApproveRow, confidence_order, pyCapitalize_Low]
  · simp [autoApproveRow, h2, CATEGORY_NOT_RELEVANT]

/-- C4 witness: the statement at a concrete High-confidence Result row with
threshold Medium and a concrete Not Relevant row. -/
theorem C4_witness :
    autoApproveRow "Medium" { entry0 with ai_confidence := "High", category := "Result" } =
      (if spec_confidence_rank ({ entry0 with ai_confidence := "High", category := "Result" } : Entry).ai_confidence ≥ spec_confidence_rank "Medium" ∧
          ({ entry0 with ai_confidence := "High", category := "Result" } : Entry).category ≠ "Not Relevant"
       then { ({ entry0 with ai_confidence := "High", category := "Result" } : Entry) with status := "Run GPT" }
       else { entry0 with ai_confidence := "High", category := "Result" })
    ∧ autoApproveRow "Medium" { ({ entry0 with ai_confidence := "High", category := "Result" } : Entry) with ai_confidence := "Low" } = { ({ entry0 with ai_confidence := "High", category := "Result" } : Entry) with ai_confidence := "Low" }
    ∧ autoApproveRow "High" { entry0 with category := "Not Relevant", ai_confidence := "High" } = { entry0 with category := "Not Relevant", ai_confidence := "High" } :=
  C4_approval_gate { entry0 with ai_confidence := "High", category := "Result" }
    { entry0 with category := "Not Relevant", ai_confidence := "High" } "Medium" "High"
    (Or.inr (Or.inr rfl)) (Or.inr (Or.inl rfl)) rfl

/-- C5: for an entry with status Run GPT and a relevant category, when
exactly one of the four artifact calls fails and the other three succeed,
generation still returns a content record whose map holds the three parsed
artifacts and exactly one error marker (at the failing slot), and the
content-link update still moves the entry to status Content Generated. -/
theorem C5_one_slot_fails (csvc : ContentSvc) (e : Entry) (bad : ContentType) (ts ts2 : String)
    (hst : e.status = "Run GPT") (hcat : e.category ≠ "Not Relevant")
    (hbad : ∃ m, csvc bad 0 = Except.error m)
    (hok : ∀ ct, ct ≠ bad → ∃ s, csvc ct 0 = Except.ok s) :
    ∃ gc, generate_content_for_keyword csvc ts e = some gc
      ∧ gc.keyword = e.keyword
      ∧ gc.slots.length = 4
      ∧ List.countP (fun p => Artifact.isError p.2) gc.slots = 1
      ∧ (∃ m, (bad, Artifact.errorMarker m) ∈ gc.slots)
      ∧ (∀ ct, ct ≠ bad → ∃ s, (ct, Artifact.parsed s) ∈ gc.slots)
      ∧ (update_original_data_with_content_links ts2 [gc] [e]).map Entry.status
          = ["Content Generated"] := by
  obtain ⟨m, hm⟩ := hbad
  cases bad with
  | instagram_post =>
    obtain ⟨s1, hb1⟩ := hok ContentType.blog_article (by decide)
    obtain ⟨s2, hb2⟩ := hok ContentType.youtube_reel (by decide)
    obtain ⟨s3, hb3⟩ := hok ContentType.youtube_thumbnail (by decide)
    refine ⟨{ keyword := e.keyword, category := e.category, interest_score := e.interest_score,
              generated_at := ts,
              slots := [(ContentType.instagram_post, Artifact.errorMarker m),
                        (ContentType.blog_article, Artifact.parsed s1),
                        (ContentType.youtube_reel, Artifact.parsed s2),
                        (ContentType.youtube_thumbnail, Artifact.parsed s3)] },
            ?_, rfl, rfl, rfl, ⟨m, by simp⟩, ?_,
            updateStatus_content_generated ts2 _ e rfl hcat⟩
    · simp [generate_content_for_keyword, hst, hcat, contentTypes, generateSlot,
        contentSlotCall, hm, hb1, hb2, hb3, STATUS_RUN_GPT, CATEGORY_NOT_RELEVANT]
    · intro ct hne
      cases ct with
      | instagram_post => exact absurd rfl hne
      | blog_article => exact ⟨s1, by simp⟩
      | youtube_reel => exact ⟨s2, by simp⟩
      | youtube_thumbnail => exact ⟨s3, by simp⟩
  | blog_article =>
    obtain ⟨s1, hb1⟩ := hok ContentType.instagram_post (by decide)
    obtain ⟨s2, hb2⟩ := hok ContentType.youtube_reel (by decide)
    obtain ⟨s3, hb3⟩ := hok ContentType.youtube_thumbnail (by decide)
    refine ⟨{ keyword := e.keyword, category := e.category, interest_score := e.interest_score,
              generated_at := ts,
              slots := [(ContentType.instagram_post, Artifact.parsed s1),
                        (ContentType.blog_article, Artifact.errorMarker m),
                        (ContentType.youtube_reel, Artifact.parsed s2),
                        (ContentType.youtube_thumbnail, Artifact.parsed s3)] },
            ?_, rfl, rfl, rfl, ⟨m, by simp⟩, ?_,
            updateStatus_content_generated ts2 _ e rfl hcat⟩
    · simp [generate_content_for_keyword, hst, hcat, contentTypes, generateSlot,
        contentSlotCall, hm, hb1, hb2, hb3, STATUS_RUN_GPT, CATEGORY_NOT_RELEVANT]
    · intro ct hne
      cases ct with
      | blog_article => exact absurd rfl hne
      | instagram_post => exact ⟨s1, by simp⟩
      | youtube_reel => exact ⟨s2, by simp⟩
      | youtube_thumbnail => exact ⟨s3, by simp⟩
  | youtube_reel =>
    obtain ⟨s1, hb1⟩ := hok ContentType.instagram_post (by decide)
    obtain ⟨s2, hb2⟩ := hok ContentType.blog_article (by decide)
    obtain ⟨s3, hb3⟩ := hok ContentType.youtube_thumbnail (by decide)
    refine ⟨{ keyword := e.keyword, category := e.category, interest_score := e.interest_score,
              generated_at := ts,
              slots := [(ContentType.instagram_post, Artifact.parsed s1),
                        (ContentType.blog_article, Artifact.parsed s2),
                        (ContentType.youtube_reel, Artifact.errorMarker m),
                        (ContentType.youtube_thumbnail, Artifact.parsed s3)] },
            ?_, rfl, rfl, rfl, ⟨m, by simp⟩, ?_,
            updateStatus_content_generated ts2 _ e rfl hcat⟩
    · simp [generate_content_for_keyword, hst, hcat, contentTypes, generateSlot,
        contentSlotCall, hm, hb1, hb2, hb3, STATUS_RUN_GPT, CATEGORY_NOT_RELEVANT]
    · intro ct hne
      cases ct with
      | youtube_reel => exact absurd rfl hne
      | instagram_post => exact ⟨s1, by simp⟩
      | blog_article => exact ⟨s2, by simp⟩
      | youtube_thumbnail => exact ⟨s3, by simp⟩
  | youtube_thumbnail =>
    obtain ⟨s1, hb1⟩ := hok ContentType.instagram_post (by decide)
    obtain ⟨s2, hb2⟩ := hok ContentType.blog_article (by decide)
    obtain ⟨s3, hb3⟩ := hok ContentType.youtube_reel (by decide)
    refine ⟨{ keyword := e.keyword, category := e.category, interest_score := e.interest_score,
              generated_at := ts,
              slots := [(ContentType.instagram_post, Artifact.parsed s1),
                        (ContentType.blog_article, Artifact.parsed s2),
                        (ContentType.youtube_reel, Artifact.parsed s3),
                        (ContentType.youtube_thumbnail, Artifact.errorMarker m)] },
            ?_, rfl, rfl, rfl, ⟨m, by simp⟩, ?_,
            updateStatus_content_generated ts2 _ e rfl hcat⟩
    · simp [generate_content_for_keyword, hst, hcat, contentTypes, generateSlot,
        contentSlotCall, hm, hb1, hb2, hb3, STATUS_RUN_GPT, CATEGORY_NOT_RELEVANT]
    · intro ct hne
      cases ct with
      | youtube_thumbnail => exact absurd rfl hne
      | instagram_post => exact ⟨s1, by simp⟩
      | blog_article => exact ⟨s2, by simp⟩
      | youtube_reel => exact ⟨s3, by simp⟩

/-- C5 witness: the statement at a concrete approved entry against the
service where exactly the instagram_post slot fails. -/
theorem C5_witness :
    ∃ gc, generate_content_for_keyword oneFailSvc "t1"
        { entry0 with keyword := "neet result", status := "Run GPT", category := "Result" } = some gc
      ∧ gc.keyword = ({ entry0 with keyword := "neet result", status := "Run GPT", category := "Result" } : Entry).keyword
      ∧ gc.slots.length = 4
      ∧ List.countP (fun p => Artifact.isError p.2) gc.slots = 1
      ∧ (∃ m, (ContentType.instagram_post, Artifact.errorMarker m) ∈ gc.slots)
      ∧ (∀ ct, ct ≠ ContentType.instagram_post → ∃ s, (ct, Artifact.parsed s) ∈ gc.slots)
      ∧ (update_original_data_with_content_links "t2" [gc]
          [{ entry0 with keyword := "neet result", status := "Run GPT", category := "Result" }]).map Entry.status
          = ["Content Generated"] :=
  C5_one_slot_fails oneFailSvc
    { entry0 with keyword := "neet result", status := "Run GPT", category := "Result" }
    ContentType.instagram_post "t1" "t2" rfl (by decide) ⟨"boom", rfl⟩
    (fun ct h => ⟨"artifact", by simp [oneFailSvc, h]⟩)

/-- C6: the publish step fires its side effects and writes Published for
exactly the rows with approval Approved, status not Published and status
not Not Relevant, leaving every other row untouched; and running the
publish stage again on the output of a first run changes no row and fires
no side effect. -/
theorem C6_publish_exact_idempotent (rows : List SheetRow) (r : SheetRow) :
    publishRowStep r =
      (if r.approval = "Approved" ∧ r.status ≠ "Published" ∧ r.status ≠ "Not Relevant"
       then ({ r with status := "Published" },
             [PublishEvent.instagram "Sample caption with #hashtag" "#hashtag" r.instagram_link,
              PublishEvent.blog r.keyword "Sample content with links" [r.blog_link],
              PublishEvent.youtube "Sample reel script" r.youtube_thumbnail_link])
       else (r, []))
    ∧ publisher_run (publisher_run rows).1 = ((publisher_run rows).1, []) := by
  refine ⟨publishRowStep_eq r, ?_⟩
  induction rows with
  | nil => rfl
  | cons x xs ih => simp [publisher_run, publishRowStep_idem, ih]

/-- C7 (counterexample): the claim that an invalid confidence value is
coerced to Low fails on the code: a parsed response carrying the
out-of-range confidence Banana is returned with confidence Banana, because
the code only substitutes Low when the field is missing. -/
theorem C7_counterexample :
    (categorize_keyword badConfSvc entry0 3 5).1.confidence = "Banana"
    ∧ ("Banana" : String) ≠ "Low" := ⟨rfl, by decide⟩

/-- C7 (amended): categorization always returns a typed result: exhausted
retries yield the sentinel Not Relevant / Low; a successful parse yields a
record whose category is coerced — any out-of-taxonomy or missing category
becomes Not Relevant — while the confidence is only defaulted to Low when
missing and is otherwise passed through unchanged, even when invalid. -/
theorem C7_categorization_fallback (svc : CatSvc) (e : Entry) (g : GptResult) (c : String)
    (hfail : ∀ i, ∃ m, svc i = Except.error m)
    (hc : c ∉ VALID_CATEGORIES) :
    (categorize_keyword svc e 3 5).1 = sentinelResult (perform_web_search e.keyword)
    ∧ (categorize_keyword (fun _ => Except.ok g) e 3 5).1 =
        { category := coerceCategory g.category,
          confidence := g.confidence.getD "Low",
          reasoning := g.reasoning.getD "No reasoning provided",
          web_search_summary := perform_web_search e.keyword }
    ∧ coerceCategory (some c) = CATEGORY_NOT_RELEVANT
    ∧ coerceCategory none = CATEGORY_NOT_RELEVANT := by
  obtain ⟨m0, h0⟩ := hfail 0
  obtain ⟨m1, h1⟩ := hfail 1
  obtain ⟨m2, h2⟩ := hfail 2
  refine ⟨?_, ?_, ?_, by decide⟩
  · simp [categorize_keyword, categorizeAttempts, h0, h1, h2]
  · simp [categorize_keyword, categorizeAttempts]
  · simp [coerceCategory, hc]

/-- C7 witness: the amended statement at the always-failing service, a
concrete parsed record with missing fields, and the out-of-taxonomy
category Banana. -/
theorem C7_witness :
    (categorize_keyword failSvc entry0 3 5).1 = sentinelResult (perform_web_search entry0.keyword)
    ∧ (categorize_keyword (fun _ => Except.ok ⟨some "Result", none, none⟩) entry0 3 5).1 =
        { category := coerceCategory (some "Result"),
          confidence := (none : Option String).getD "Low",
          reasoning := (none : Option String).getD "No reasoning provided",
          web_search_summary := perform_web_search entry0.keyword }
    ∧ coerceCategory (some "Banana") = CATEGORY_NOT_RELEVANT
    ∧ coerceCategory none = CATEGORY_NOT_RELEVANT :=
  C7_categorization_fallback failSvc entry0 ⟨some "Result", none, none⟩ "Banana"
    (fun _ => ⟨"boom", rfl⟩) (by decide)

/-- C8 (counterexample): the claim that the later of two same-keyword trend
records is retained fails on the code: the dedup keeps the first occurrence,
so of two ssc-result records the saved output holds exactly the earlier
one. -/
theorem C8_counterexample :
    save_to_csv_dedup [sscRecA, sscRecB] = [sscRecA]
    ∧ save_to_csv_dedup [sscRecA, sscRecB] ≠ [sscRecB] := by decide

/-- C8 (amended): when the trend data contains two records with the same
keyword, exactly one record with that keyword appears in the saved output,
and it is the earlier (first-seen) of the two. -/
theorem C8_dedup_first_wins (r1 r2 : TrendRecord) (h : r1.keyword = r2.keyword) :
    save_to_csv_dedup [r1, r2] = [r1]
    ∧ List.countP (fun x => x.keyword == r1.keyword) (save_to_csv_dedup [r1, r2]) = 1 := by
  constructor
  · simp [save_to_csv_dedup, dedupFirstGo, h]
  · simp [save_to_csv_dedup, dedupFirstGo, h]

/-- C8 witness: the amended statement at the two concrete ssc-result
records. -/
theorem C8_witness :
    save_to_csv_dedup [sscRecA, sscRecB] = [sscRecA]
    ∧ List.countP (fun x => x.keyword == sscRecA.keyword) (save_to_csv_dedup [sscRecA, sscRecB]) = 1 :=
  C8_dedup_first_wins sscRecA sscRecB rfl

/-- C9 (counterexample): the claim that an invalid status transition is
signalled as an InvalidTransitionError fails on the code: no transition
validation exists anywhere, and the categorization batch, handed an entry
already in the terminal Published status, silently overwrites it with
Pending — a regression — and returns a normal batch result. -/
theorem C9_counterexample :
    (process_batch failSvc "2025-01-01 00:00:00" [{ entry0 with status := "Published" }]).map Entry.status
      = ["Pending"]
    ∧ statusRegressed "Published" "Pending" = true := by decide

/-- C9 (amended): no stage validates status transitions or signals an
InvalidTransitionError: statuses are untyped strings overwritten silently;
in particular the categorization batch is total, processes every entry of
the batch, and writes status Pending unconditionally whatever the prior
status was. -/
theorem C9_no_transition_guard (svc : CatSvc) (ts : String) (data : List Entry) :
    (process_batch svc ts data).map Entry.status = data.map (fun _ => STATUS_PENDING) := by
  induction data with
  | nil => rfl
  | cons e es ih => simpa [process_batch, processBatchEntry] using ih

/-- C10: the approval gate capitalizes the confidence value first, so high,
HIGH and hIgh all rank as High (2); a value that is not Low, Medium or High
after capitalization — the empty string included — ranks 0, the same as
Low, and such a row is approved exactly when the threshold is Low (its
category being relevant). -/
theorem C10_confidence_normalization (row : Entry) (t v : String)
    (hv1 : pyCapitalize v ≠ "Low") (hv2 : pyCapitalize v ≠ "Medium") (hv3 : pyCapitalize v ≠ "High")
    (hcat : row.category ≠ "Not Relevant") :
    (confidence_order (pyCapitalize "high")).getD 0 = 2
    ∧ (confidence_order (pyCapitalize "HIGH")).getD 0 = 2
    ∧ (confidence_order (pyCapitalize "hIgh")).getD 0 = 2
    ∧ (confidence_order (pyCapitalize "")).getD 0 = (confidence_order "Low").getD 0
    ∧ (confidence_order (pyCapitalize v)).getD 0 = (confidence_order "Low").getD 0
    ∧ autoApproveRow t { row with ai_confidence := v } =
        (if t = "Low"
         then { row with ai_confidence := v, status := "Run GPT" }
         else { row with ai_confidence := v }) := by
  have hv : confidence_order (pyCapitalize v) = none := by
    simp [confidence_order, hv1, hv2, hv3]
  refine ⟨by decide, by decide, by decide, by decide, ?_, ?_⟩
  · simp only [hv, Option.getD_none]
    simp [confidence_order]
  · by_cases hLow : t = "Low"
    · simp [autoApproveRow, hv, confidence_order, hLow, hcat,
        CATEGORY_NOT_RELEVANT, STATUS_RUN_GPT]
    · have hge : (confidence_order t).getD 1 ≠ 0 := by
        by_cases hM : t = "Medium"
        · simp [confidence_order, hM, hLow]
        · by_cases hH : t = "High"
          · simp [confidence_order, hH, hLow, hM]
          · simp [confidence_order, hLow, hM, hH]
      have hnge : ¬((confidence_order (pyCapitalize v)).getD 0 ≥ (confidence_order t).getD 1) := by
        rw [hv]
        simp only [Option.getD_none]
        omega
      simp [autoApproveRow, hnge, hLow]

/-- C10 witness: the statement at the concrete invalid value Banana on a
Result row with threshold Low. -/
theorem C10_witness :
    (confidence_order (pyCapitalize "high")).getD 0 = 2
    ∧ (confidence_order (pyCapitalize "HIGH")).getD 0 = 2
    ∧ (confidence_order (pyCapitalize "hIgh")).getD 0 = 2
    ∧ (confidence_order (pyCapitalize "")).getD 0 = (confidence_order "Low").getD 0
    ∧ (confidence_order (pyCapitalize "Banana")).getD 0 = (confidence_order "Low").getD 0
    ∧ autoApproveRow "Low" { ({ entry0 with category := "Result" } : Entry) with ai_confidence := "Banana" } =
        (if ("Low" : String) = "Low"
         then { ({ entry0 with category := "Result" } : Entry) with ai_confidence := "Banana", status := "Run GPT" }
         else { ({ entry0 with category := "Result" } : Entry) with ai_confidence := "Banana" }) :=
  C10_confidence_normalization { entry0 with category := "Result" } "Low" "Banana"
    (by decide) (by decide) (by decide) (by decide)

end Pipeline
